import Mathlib

/-!
Verification of the workflow execution and continual-learning subsystem of the
agi-assistant repository (`dashboard.py` and `run_automation.py`), as a shallow
embedding in Lean.

The embedding mirrors the Python source:
* JSON step dictionaries become the `Step` structure with optional argument
  fields (a missing dictionary key is `none`).
* The learning database (`data/learning_database.json`) becomes `LearningData`;
  the Python dict keyed by workflow id becomes an association list.
* `DashboardController.update_learning_data` becomes the pure function
  `update_learning_data`; the in-memory execution of
  `DashboardController.execute_workflow_with_feedback` becomes
  `execute_workflow_with_feedback`, with the file system, the shared stop flag,
  the clock, and `pyautogui` exceptions supplied as explicit parameters.
* Python floats (used by `get_success_rate`) are modelled exactly as IEEE-754
  binary64 values, via round-to-nearest-even on exact fractions (`roundQF`).
* The Flask routes and the background thread they spawn become a small
  interleaving transition system (`Sys`, `sysStep`).
-/

/-! ## Data model -/

/-- `args` dictionary of one automation step; a missing key is `none`.
Mirrors the JSON shape `{x, y, text, seconds, keys}` read by
`dashboard.py` and `run_automation.py`. -/
structure Args where
  x : Option Int := none
  y : Option Int := none
  text : Option String := none
  seconds : Option Int := none
  keys : Option String := none
deriving DecidableEq, Repr

/-- One entry of `workflow["automation_steps"]`. -/
structure Step where
  action : String := ""
  description : String := ""
  target : String := ""
  args : Args := {}
deriving DecidableEq, Repr

/-- Per-workflow statistics stored under `learning_data["success_rate"][wid]`. -/
structure WfStats where
  total : Nat := 0
  successful : Nat := 0
  last_run : Option String := none
deriving DecidableEq, Repr

/-- One element of `learning_data["learning_curve"]`. -/
structure CurveEntry where
  timestamp : String
  workflow_id : String
  success : Bool
  steps_completed : Nat
  total_steps : Nat
deriving DecidableEq, Repr

/-- The learning database (`data/learning_database.json`). The Python dict
`success_rate` keyed by workflow id is an association list with unique keys.
The `workflow_improvements` field of the JSON file is never read or written by
the modelled operations and is omitted. -/
structure LearningData where
  total_sessions : Nat := 0
  total_automations : Nat := 0
  success_rate : List (String × WfStats) := []
  learning_curve : List CurveEntry := []
deriving DecidableEq, Repr

/-- The default database returned by `load_learning_data` when
`data/learning_database.json` does not exist. -/
def freshLearningData : LearningData := {}

/-- Dictionary read: `learning_data["success_rate"].get(wid)`. -/
def lookupSR (l : List (String × WfStats)) (k : String) : Option WfStats :=
  (l.find? (fun p => p.1 == k)).map (fun p => p.2)

/-- Dictionary write: `learning_data["success_rate"][wid] = v`
(replace the binding if the key is present, insert it otherwise). -/
def setSR : List (String × WfStats) → String → WfStats → List (String × WfStats)
  | [], k, v => [(k, v)]
  | (k0, v0) :: rest, k, v =>
      if k0 == k then (k, v) :: rest else (k0, v0) :: setSR rest k v

/-- Python slice `l[-n:]`: the trailing window of at most `n` elements. -/
def takeLast (n : Nat) (l : List α) : List α := l.drop (l.length - n)

/-! ## Learning Recorder (`DashboardController.update_learning_data`) -/

/-- `DashboardController.update_learning_data(workflow_id, success,
successful_steps, total_steps)`, acting on the in-memory database loaded at the
start of the call. `now` stands for `datetime.now().isoformat()`. -/
def update_learning_data (d : LearningData) (wid : String) (success : Bool)
    (successful_steps total_steps : Nat) (now : String) : LearningData :=
  let d1 : LearningData := { d with total_automations := d.total_automations + 1 }
  let stats0 : WfStats := (lookupSR d1.success_rate wid).getD {}
  let stats : WfStats :=
    { stats0 with
        total := stats0.total + 1
        successful := stats0.successful + (if success then 1 else 0)
        last_run := some now }
  let entry : CurveEntry :=
    { timestamp := now, workflow_id := wid, success := success
      steps_completed := successful_steps, total_steps := total_steps }
  { d1 with
      success_rate := setSR d1.success_rate wid stats
      learning_curve := takeLast 100 (d1.learning_curve ++ [entry]) }

/-- How one attempt of `save_learning_data`'s write goes:
both `open(path, 'w')` and `json.dump` complete; `open` itself raises
(unwritable path, ...) before touching the file; or `open` succeeds — and
truncates the file on open — and `json.dump` then raises mid-write
(disk full, ...). -/
inductive SaveOutcome where
  | ok
  | openFailed
  | dumpFailed
deriving DecidableEq, Repr

/-- The learning-database file after a write attempt: well-formed JSON holding
a database, or the truncated/partial bytes left behind when `json.dump` raised
after `open(path, 'w')` had already truncated the file. -/
inductive DbFile where
  | holds (d : LearningData)
  | partialWrite
deriving DecidableEq, Repr

/-- `DashboardController.save_learning_data`: `open(self.learning_db, 'w')`
followed by `json.dump`, with no exception handling of its own.  Returns
whether the call raised, and the state the file is left in: the new content on
success, the previous file (`before`) when `open` raised, and a
truncated/partial file when `json.dump` raised after `open` truncated it. -/
def save_learning_data (so : SaveOutcome) (before : DbFile) (d : LearningData) :
    Except String Unit × DbFile :=
  match so with
  | .ok => (.ok (), .holds d)
  | .openFailed => (.error "save failed", before)
  | .dumpFailed => (.error "save failed", .partialWrite)

/-- `update_learning_data` followed by the `save_learning_data` call it ends
with: the whole learning-record operation as seen by its caller.  The file it
rewrites is the one the in-memory `d` was loaded from.  A raised persistence
error surfaces in the first component; the second is the file afterwards. -/
def update_learning_record (d : LearningData) (wid : String) (success : Bool)
    (successful_steps total_steps : Nat) (now : String) (so : SaveOutcome) :
    Except String Unit × DbFile :=
  save_learning_data so (.holds d)
    (update_learning_data d wid success successful_steps total_steps now)

/-! ## Step Dispatcher (the inline dispatch of
`DashboardController.execute_workflow_with_feedback`) -/

/-- One injected side effect handed to `pyautogui`. -/
inductive Call where
  | click (x y : Int)
  | write (text : String)
  | sleep (seconds : Int)
  | hotkey (keys : List String)
deriving DecidableEq, Repr

/-- `True` iff the needle occurs in the haystack; models Python
`needle in haystack` on strings (for nonempty needles). -/
def containsSub (haystack needle : String) : Bool :=
  (haystack.splitOn needle).length != 1

/-- `DashboardController.get_reasoning_for_action`: deterministic template
lookup refined by keywords of the description. -/
def get_reasoning_for_action (step : Step) : String :=
  let base :=
    if step.action = "click" then
      "I need to click this element to proceed with the workflow"
    else if step.action = "type" then
      "I am entering this text because it was part of the observed pattern"
    else if step.action = "wait" then
      "I am pausing to allow the UI to update and respond"
    else if step.action = "hotkey" then
      "I am using this keyboard shortcut as it was detected in the original workflow"
    else
      "Executing this step as part of the learned workflow"
  if containsSub step.description.toLower "save" then
    base ++ ". This appears to be a save operation."
  else if containsSub step.description.toLower "open" then
    base ++ ". This will open the application or file."
  else if containsSub step.description.toLower "close" then
    base ++ ". This will close the current window."
  else base

/-- `keys.lower().replace(' ', '').split('+')`. -/
def splitKeys (keys : String) : List String :=
  ((keys.toLower).replace " " "").splitOn "+"

/-- The body of the per-step `try:` block of
`execute_workflow_with_feedback`, for one step.  Returns the log messages it
appends, the `pyautogui` calls it makes, and whether `successful_steps` is
incremented (that is, whether no exception was raised; the increment sits
after the action dispatch inside the same `try`).  `raisesHere` says whether
the `pyautogui` call of this step raises; branches that make no such call
cannot raise and always count as successful. -/
def dispatchStep (step : Step) (raisesHere : Bool) :
    List String × List Call × Bool :=
  if step.action = "click" then
    match step.args.x, step.args.y with
    | some x, some y =>
        if raisesHere then
          (["Clicking " ++ step.target, "Error executing step"], [.click x y], false)
        else
          (["Clicking " ++ step.target, "Clicked at coordinates"], [.click x y], true)
    | _, _ =>
        (["Clicking " ++ step.target, "No coordinates available, skipping"], [], true)
  else if step.action = "type" then
    let text := step.args.text.getD ""
    if raisesHere then
      (["Typing " ++ text, "Error executing step"], [.write text], false)
    else
      (["Typing " ++ text, "Typed successfully"], [.write text], true)
  else if step.action = "wait" then
    let seconds := step.args.seconds.getD 1
    if raisesHere then
      (["Waiting", "Error executing step"], [.sleep seconds], false)
    else
      (["Waiting", "Wait complete"], [.sleep seconds], true)
  else if step.action = "hotkey" then
    let keys := step.args.keys.getD ""
    if raisesHere then
      (["Pressing hotkey " ++ keys, "Error executing step"], [.hotkey (splitKeys keys)], false)
    else
      (["Pressing hotkey " ++ keys, "Hotkey pressed"], [.hotkey (splitKeys keys)], true)
  else
    (["Unknown action type " ++ step.action], [], true)

/-! ## Execution Controller (`execute_workflow_with_feedback`) -/

/-- What one run of the `for i, step in enumerate(steps, 1)` loop produced. -/
structure LoopOut where
  logs : List String := []
  calls : List Call := []
  successful : Nat := 0
  dispatched : Nat := 0
  stopped : Bool := false
deriving DecidableEq, Repr

/-- Whether the `if not automation_running` check at the top of loop iteration
`i` (1-based) observes the stop flag.  `stopAfter = some k` models a `/api/stop`
request issued after step `k` completed and before step `k+1` started. -/
def stopObserved : Option Nat → Nat → Bool
  | some k, i => decide (k < i)
  | none, _ => false

/-- The execution loop, starting from 1-based iteration index `i`.
`n` is `len(steps)` (used in the per-step header log), `raises j` says whether
the `pyautogui` call of iteration `j` raises. -/
def runLoopAux (n : Nat) (stopAfter : Option Nat) (raises : Nat → Bool) :
    Nat → List Step → LoopOut
  | _, [] => {}
  | i, step :: rest =>
    if stopObserved stopAfter i then
      { logs := ["Automation stopped by user"], stopped := true }
    else
      let d := dispatchStep step (raises i)
      let tail := runLoopAux n stopAfter raises (i + 1) rest
      { logs := ("Step " ++ step.action) :: ("Reasoning: " ++ get_reasoning_for_action step)
          :: d.1 ++ tail.logs
        calls := d.2.1 ++ tail.calls
        successful := (if d.2.2 then 1 else 0) + tail.successful
        dispatched := 1 + tail.dispatched
        stopped := tail.stopped }

/-- The test `success_rate == 100` on
`success_rate = (successful_steps / len(steps)) * 100`: whether the run's
success ratio is exactly 100.  The source computes the ratio in binary64;
for every workflow small enough to exist (fewer than `2 ^ 53` steps) the
float comparison agrees with the exact rational comparison used here. -/
def ratioIs100 (successful n : Nat) : Bool :=
  decide ((successful : ℚ) / (n : ℚ) * 100 = 100)

/-- What `self.workflows_dir / f"workflow_{workflow_id}.json"` yields:
the file is absent, the file exists but `open`/`json.load` raises, or the
workflow loads with the given `automation_steps` list. -/
inductive LoadResult where
  | missing
  | unreadable
  | ok (steps : List Step)
deriving DecidableEq, Repr

/-- Which exit `execute_workflow_with_feedback` took.  `notFound` is the early
`return False` for a missing workflow file; `criticalError` is the generic
`except Exception` handler; `completed` is the normal return `True` (also taken
by a run stopped mid-way, which still records learning data). -/
inductive Outcome where
  | notFound
  | criticalError
  | completed
deriving DecidableEq, Repr

/-- The observable result of one call of `execute_workflow_with_feedback`:
the run-local `execution_logs`, the injected calls, the value of the shared
`automation_running` flag when the call returns, the returned boolean, the
state of the learning-database file after the call, and ghost projections of
the path taken (`outcome`), the user-stop break (`stopped`), and the loop
counters. -/
structure RunResult where
  logs : List String
  calls : List Call
  running_after : Bool
  retval : Bool
  db : DbFile
  outcome : Outcome
  stopped : Bool
  dispatched : Nat
  successful : Nat
deriving DecidableEq, Repr

/-- `DashboardController.execute_workflow_with_feedback(workflow_id)`, run to
completion in the execution thread.  The function first sets
`automation_running = True` and clears `execution_logs`; the result records
where the flag ends up.  `file` is the outcome of loading the workflow file,
`stopAfter` the observed stop request (if any), `raises` the behaviour of the
injected `pyautogui` calls, `so` how the learning-database write attempt goes,
`db` the learning database held by the file on entry, `now` the clock. -/
def execute_workflow_with_feedback (file : LoadResult) (wid : String)
    (db : LearningData) (stopAfter : Option Nat) (raises : Nat → Bool)
    (so : SaveOutcome) (now : String) : RunResult :=
  match file with
  | .missing =>
      -- `return False` with no `automation_running = False` before it:
      -- the flag set on entry is still `True` when the thread exits.
      { logs := ["Workflow file not found"], calls := [], running_after := true
        retval := false, db := .holds db, outcome := .notFound, stopped := false
        dispatched := 0, successful := 0 }
  | .unreadable =>
      -- `open`/`json.load` raised: caught by the generic handler.
      { logs := ["Critical error: workflow file unreadable"], calls := []
        running_after := false, retval := false, db := .holds db
        outcome := .criticalError, stopped := false, dispatched := 0, successful := 0 }
  | .ok steps =>
      let n := steps.length
      let startLogs := ["Starting automation for workflow " ++ wid,
                        "Total steps to execute", "Waiting 3 seconds"]
      let lo := runLoopAux n stopAfter raises 1 steps
      if n = 0 then
        -- `success_rate = (successful_steps / len(steps)) * 100` raises
        -- ZeroDivisionError, caught by the generic handler; the database
        -- file was never written.
        { logs := startLogs ++ lo.logs ++ ["Critical error: division by zero"]
          calls := lo.calls, running_after := false, retval := false, db := .holds db
          outcome := .criticalError, stopped := lo.stopped
          dispatched := lo.dispatched, successful := lo.successful }
      else
        let success : Bool := ratioIs100 lo.successful n
        let completionLog :=
          if success then "Automation complete, all steps executed successfully"
          else "Automation completed with some unsuccessful steps"
        let saveRes := update_learning_record db wid success lo.successful n now so
        match saveRes.1 with
        | .error e =>
            -- the persistence error propagates out of `update_learning_data`
            -- into the generic handler; the file stays as the failed write
            -- left it (untouched, or truncated by `open(path, 'w')`).
            { logs := startLogs ++ lo.logs ++ [completionLog, "Critical error: " ++ e]
              calls := lo.calls, running_after := false, retval := false
              db := saveRes.2, outcome := .criticalError, stopped := lo.stopped
              dispatched := lo.dispatched, successful := lo.successful }
        | .ok _ =>
            { logs := startLogs ++ lo.logs ++ [completionLog]
              calls := lo.calls, running_after := false, retval := true
              db := saveRes.2, outcome := .completed, stopped := lo.stopped
              dispatched := lo.dispatched, successful := lo.successful }

/-! ## The `run_automation.py` Step Dispatcher (`AutomationRunner`) -/

/-- `AutomationRunner._execute_type`: the prints it makes and the `pyautogui`
calls it issues.  Empty (or missing) text returns before any injection. -/
def rexecute_type (step : Step) : List String × List Call :=
  let text := step.args.text.getD ""
  if text = "" then
    (["No text to type"], [])
  else
    let preClick : List Call :=
      match step.args.x, step.args.y with
      | some x, some y => [.click x y]
      | _, _ => []
    (["Typing " ++ text], preClick ++ [.write text])

/-- `AutomationRunner._execute_click`. -/
def rexecute_click (step : Step) : List String × List Call :=
  match step.args.x, step.args.y with
  | some x, some y => (["Clicking at coordinates"], [.click x y])
  | _, _ => (["No coordinates for click target " ++ step.target,
              "Round 2: implement visual element detection here"], [])

/-- `AutomationRunner._execute_hotkey`. -/
def rexecute_hotkey (step : Step) : List String × List Call :=
  let keys := step.args.keys.getD ""
  if keys = "" then (["No hotkey specified"], [])
  else (["Pressing hotkey " ++ keys], [.hotkey (splitKeys keys)])

/-- `AutomationRunner._execute_wait`. -/
def rexecute_wait (step : Step) : List String × List Call :=
  (["Waiting"], [.sleep (step.args.seconds.getD 1)])

/-- `AutomationRunner.execute_step(step, dry_run=False)`: prints, injected
calls, and whether the closing `✅ Step completed` print was reached (it is
skipped only when the dispatched action raised; `raisesHere` says whether the
`pyautogui` call of this step raises, and branches that make no call cannot
raise). -/
def rexecute_step (step : Step) (raisesHere : Bool) :
    List String × List Call × Bool :=
  let header := "Step " ++ step.action ++ ": " ++ step.description
  let body : List String × List Call :=
    if step.action = "click" then rexecute_click step
    else if step.action = "type" then rexecute_type step
    else if step.action = "wait" then rexecute_wait step
    else if step.action = "hotkey" then rexecute_hotkey step
    else if step.action = "execute" then
      (["Executing command deferred", "Round 2: implement OS command execution here"], [])
    else (["Unknown action type " ++ step.action], [])
  if raisesHere ∧ body.2 ≠ [] then
    (header :: body.1 ++ ["Error in step"], body.2, false)
  else
    (header :: body.1 ++ ["Step completed"], body.2, true)

/-! ## IEEE-754 binary64 model for `get_success_rate`

`DashboardController.get_success_rate` computes
`int((successful / total) * 100)` with Python floats.  CPython floats are
IEEE-754 binary64 with round-to-nearest, ties-to-even; `int / int` true
division and `float * int` multiplication are correctly rounded.  Every value
arising here is a nonnegative dyadic rational in the normal range, so the
model represents exact values as unnormalised nonnegative fractions `QF` and
applies value-level round-to-nearest-even at 53 significant bits. -/

/-- An unnormalised nonnegative fraction `num / den`. -/
structure QF where
  num : Nat
  den : Nat
deriving DecidableEq, Repr

/-- The exact rational value of a fraction. -/
def QF.val (x : QF) : ℚ := (x.num : ℚ) / (x.den : ℚ)

/-- Binary exponent search, upward: the floor of `log2 (num / den)` when
`den ≤ num` (with enough fuel). -/
def expUpN : Nat → Nat → Nat → Int
  | 0, _, _ => 0
  | fuel + 1, num, den => if num < 2 * den then 0 else expUpN fuel num (2 * den) + 1

/-- Binary exponent search, downward: the floor of `log2 (num / den)` when
`0 < num < den` (with enough fuel). -/
def expDownN : Nat → Nat → Nat → Int
  | 0, _, _ => 0
  | fuel + 1, num, den => if den ≤ num then 0 else expDownN fuel (2 * num) den - 1

/-- Floor of `log2 (num / den)` for positive `num`, `den`.  Fuel 300 covers
every exponent reachable from counters below `2 ^ 299`. -/
def log2floorN (num den : Nat) : Int :=
  if den ≤ num then expUpN 300 num den else expDownN 300 num den

/-- Round-to-nearest-even at 53 significant bits of a positive fraction:
with `e = ⌊log2 x⌋`, scale `x` by `2 ^ (52 - e)` into `[2 ^ 52, 2 ^ 53)`,
round the scaled value to the nearest integer (ties to even), and scale back.
This is the value of the binary64 float nearest to `x` (normal range). -/
def roundQF (x : QF) : QF :=
  if x.num = 0 ∨ x.den = 0 then ⟨0, 1⟩
  else
    let e := log2floorN x.num x.den
    let shiftUp := (52 - e).toNat
    let shiftDown := (e - 52).toNat
    let N := x.num * 2 ^ shiftUp
    let D := x.den * 2 ^ shiftDown
    let q := N / D
    let r := N % D
    let m := if 2 * r < D then q
             else if D < 2 * r then q + 1
             else if q % 2 = 0 then q else q + 1
    ⟨m * 2 ^ shiftDown, 2 ^ shiftUp⟩

/-- Python `successful / total` (int true division): the correctly rounded
binary64 quotient. -/
def pydivN (a b : Nat) : QF := roundQF ⟨a, b⟩

/-- Python `x * 100` on a float `x`: the correctly rounded binary64 product. -/
def pymulN (x : QF) (c : Nat) : QF := roundQF ⟨x.num * c, x.den⟩

/-- Python `int(x)` on a nonnegative float: truncation. -/
def pyintN (x : QF) : Nat := x.num / x.den

/-- `DashboardController.get_success_rate(workflow_id)` acting on the loaded
learning database: `stats.get('total', 0)`, `stats.get('successful', 0)`,
`0` on zero total, else `int((successful / total) * 100)` in binary64. -/
def get_success_rate (d : LearningData) (wid : String) : Nat :=
  let stats := (lookupSR d.success_rate wid).getD {}
  if stats.total = 0 then 0
  else pyintN (pymulN (pydivN stats.successful stats.total) 100)

/-! ## Flask facade and execution threads as an interleaving system (C1)

`/api/execute` checks `automation_running` and spawns a `Thread` whose target
(`execute_workflow_with_feedback`) is what later sets `automation_running =
True`.  `/api/stop` clears the flag.  The transition system below gives each
route handler and each thread phase one atomic step — coarser than CPython's
real interleaving, so every trace of this system is realizable. -/

/-- Phase of one spawned execution thread: `Thread.start()` has returned but
the target has not begun; the target set the flag, reset the log and is about
to run loop iteration `i` (0-based) of `n`; or the target returned. -/
inductive ThreadSt where
  | spawned (wid : String) (n : Nat)
  | atStep (wid : String) (n : Nat) (i : Nat)
  | done
deriving DecidableEq, Repr

/-- Whether the thread is still alive. -/
def ThreadSt.live : ThreadSt → Bool
  | .done => false
  | _ => true

/-- Shared process state: the `automation_running` flag, every spawned thread,
the shared `execution_logs` (each entry ghost-tagged with the workflow id of
the run that wrote it), and the HTTP responses issued so far. -/
structure Sys where
  running : Bool := false
  threads : List ThreadSt := []
  logs : List (String × String) := []
  httpLog : List String := []
deriving DecidableEq, Repr

/-- One atomic event. -/
inductive Ev where
  | execReq (wid : String) (n : Nat)
  | stopReq
  | threadBegin (t : Nat)
  | threadStep (t : Nat)
deriving DecidableEq, Repr

/-- The transition function.  `execReq`: the `/api/execute` handler body —
reject with 400 if the flag is set, otherwise spawn a thread (the handler
itself never writes the flag).  `stopReq`: the `/api/stop` handler.
`threadBegin`: the spawned target's prologue — set the flag, reset the shared
log, append the start entries.  `threadStep`: one loop iteration — between
steps the target checks the flag and either dispatches the next step or logs
the cancellation and finishes; a finished loop clears the flag. -/
def sysStep (s : Sys) : Ev → Sys
  | .execReq wid n =>
      if s.running then
        { s with httpLog := s.httpLog ++ ["400 Automation already running"] }
      else
        { s with threads := s.threads ++ [.spawned wid n]
                 httpLog := s.httpLog ++ ["started " ++ wid] }
  | .stopReq => { s with running := false, httpLog := s.httpLog ++ ["stopped"] }
  | .threadBegin t =>
      match s.threads[t]? with
      | some (.spawned wid n) =>
          { s with running := true
                   logs := [(wid, "Starting automation for workflow " ++ wid)]
                   threads := s.threads.set t (.atStep wid n 0) }
      | _ => s
  | .threadStep t =>
      match s.threads[t]? with
      | some (.atStep wid n i) =>
          if i < n then
            if s.running then
              { s with logs := s.logs ++ [(wid, "dispatched a step")]
                       threads := s.threads.set t (.atStep wid n (i + 1)) }
            else
              { s with logs := s.logs ++ [(wid, "Automation stopped by user")]
                       running := false
                       threads := s.threads.set t .done }
          else
            { s with running := false, threads := s.threads.set t .done }
      | _ => s

/-- Run a sequence of events from the initial state. -/
def sysRun (evs : List Ev) : Sys := evs.foldl sysStep {}

/-! ## Concrete fixtures used by closed theorems and witnesses -/

/-- The specification's example workflow `wf-1`:
`[Click(10,20), Type("hello"), Wait(1), Hotkey(["ctrl","s"])]`. -/
def wf1Steps : List Step :=
  [{ action := "click", description := "Click the field", target := "field"
     args := { x := some 10, y := some 20 } },
   { action := "type", description := "Enter the text"
     args := { text := some "hello" } },
   { action := "wait", description := "Let the UI settle"
     args := { seconds := some 1 } },
   { action := "hotkey", description := "Save the file"
     args := { keys := some "ctrl+s" } }]

/-- A click step whose `args` carry no coordinates. -/
def clickNoCoords : Step :=
  { action := "click", description := "Click the button", target := "button" }

/-- A type step with text. -/
def typeHello : Step :=
  { action := "type", description := "Enter the text", args := { text := some "hello" } }

/-- A type step whose `args` carry no text. -/
def typeEmptyStep : Step :=
  { action := "type", description := "Enter the text" }

/-- A learning database in which workflow `wf-1` has 29 successes in 100
runs. -/
def db29of100 : LearningData :=
  { success_rate := [("wf-1", { total := 100, successful := 29, last_run := some "t" })] }

/-- A learning database in which workflow `wf-1` has 5 successes in 5 runs. -/
def db5of5 : LearningData :=
  { success_rate := [("wf-1", { total := 5, successful := 5, last_run := some "t" })] }

/-- The event trace of two `/api/execute` requests both handled before the
first spawned thread runs its first statement, followed by both threads
starting and each dispatching one step. -/
def c1trace : List Ev :=
  [.execReq "w1" 2, .execReq "w2" 2, .threadBegin 0, .threadBegin 1,
   .threadStep 0, .threadStep 1]

/-! ## Helper lemmas on the association list and the trailing window -/

theorem lookupSR_setSR_self (l : List (String × WfStats)) (k : String) (v : WfStats) :
    lookupSR (setSR l k v) k = some v := by
  induction l with
  | nil => simp [lookupSR, setSR, List.find?]
  | cons p rest ih =>
    obtain ⟨k0, v0⟩ := p
    by_cases h : k0 == k
    · simp [setSR, h, lookupSR, List.find?]
    · simpa [setSR, h, lookupSR, List.find?] using ih

theorem takeLast_length (n : Nat) (l : List α) :
    (takeLast n l).length = min l.length n := by
  simp only [takeLast, List.length_drop]
  omega

theorem takeLast_suffix (n : Nat) (l : List α) :
    (takeLast n l).IsSuffix l :=
  List.drop_suffix _ _

theorem getLast?_drop_of_lt (l : List α) (k : Nat) (h : k < l.length) :
    (l.drop k).getLast? = l.getLast? := by
  induction l generalizing k with
  | nil => simp at h
  | cons a tl ih =>
    cases k with
    | zero => rfl
    | succ k =>
      have htl : k < tl.length := by simpa using h
      have hne : tl ≠ [] := by
        intro hnil
        rw [hnil] at htl
        simp at htl
      rw [List.drop_succ_cons, ih k htl]
      obtain ⟨b, tl', rfl⟩ := List.exists_cons_of_ne_nil hne
      simp [List.getLast?_cons_cons]

theorem takeLast_getLast? (n : Nat) (l : List α) (hn : 0 < n) (hl : l ≠ []) :
    (takeLast n l).getLast? = l.getLast? := by
  apply getLast?_drop_of_lt
  have : 0 < l.length := List.length_pos.mpr hl
  omega

example : takeLast 3 [1, 2, 3, 4, 5] = [3, 4, 5] := by decide
example : lookupSR (setSR [] "w" ⟨1, 0, none⟩) "w" = some ⟨1, 0, none⟩ := by decide

/-! ## Evaluation checks of the embedding -/

example :
    (execute_workflow_with_feedback (.ok []) "w" freshLearningData none
      (fun _ => false) .ok "t").outcome = .criticalError := by decide

example :
    (execute_workflow_with_feedback
      (.ok [{ action := "click", args := { x := some 3, y := some 4 } }]) "w"
      freshLearningData none (fun _ => false) .ok "t").successful = 1 := by decide

example : pydivN 29 100 = ⟨5224175567749775, 2 ^ 54⟩ := by decide
example : pymulN (pydivN 29 100) 100 = ⟨8162774324609023, 2 ^ 48⟩ := by decide
example : pyintN (pymulN (pydivN 29 100) 100) = 28 := by decide
example : pyintN (pymulN (pydivN 3 4) 100) = 75 := by decide
example : pyintN (pymulN (pydivN 1 3) 100) = 33 := by decide

/-! ## Lemmas about the ratio test -/

theorem ratioIs100_iff (s n : Nat) (h : n ≠ 0) :
    ratioIs100 s n = true ↔ s = n := by
  have hn : (n : ℚ) ≠ 0 := Nat.cast_ne_zero.mpr h
  unfold ratioIs100
  rw [decide_eq_true_eq, div_mul_eq_mul_div, div_eq_iff hn]
  constructor
  · intro h1
    have h2 : (s : ℚ) * 100 = (n : ℚ) * 100 := by rw [h1]; ring
    have h3 := mul_right_cancel₀ (by norm_num : (100 : ℚ) ≠ 0) h2
    exact_mod_cast h3
  · intro h1
    rw [h1]; ring

theorem ratioIs100_self (n : Nat) (h : n ≠ 0) : ratioIs100 n n = true :=
  (ratioIs100_iff n n h).mpr rfl

theorem ratioIs100_of_ne (s n : Nat) (h : n ≠ 0) (hs : s ≠ n) :
    ratioIs100 s n = false := by
  rcases hb : ratioIs100 s n with _ | _
  · rfl
  · exact absurd ((ratioIs100_iff s n h).mp hb) hs

/-! ## Lemmas about the dispatcher and the loop -/

/-- When the injected call does not raise, every action variant ends with the
`successful_steps += 1` line: the step is counted. -/
theorem dispatchStep_counted (step : Step) :
    (dispatchStep step false).2.2 = true := by
  obtain ⟨a, de, tg, ox, oy, otx, osec, okeys⟩ := step
  unfold dispatchStep
  dsimp only
  split_ifs <;> first
    | contradiction
    | rfl
    | (cases ox <;> cases oy <;> first | contradiction | rfl)

/-- A click step with a missing coordinate makes no `pyautogui` call, appends
the skip warning, and is still counted successful. -/
theorem dispatchStep_click_no_coords (step : Step)
    (ha : step.action = "click") (hxy : step.args.x = none ∨ step.args.y = none) :
    dispatchStep step false =
      (["Clicking " ++ step.target, "No coordinates available, skipping"], [], true) := by
  obtain ⟨a, de, tg, ox, oy, otx, osec, okeys⟩ := step
  simp only at ha hxy
  subst ha
  unfold dispatchStep
  dsimp only
  rw [if_pos rfl]
  rcases hxy with hx | hy
  · subst hx; cases oy <;> rfl
  · subst hy; cases ox <;> rfl

/-- With no stop request and no raising call, the loop dispatches every step,
counts every step as successful, and never logs the cancellation entry. -/
theorem runLoopAux_none (n : Nat) (l : List Step) (i : Nat) :
    (runLoopAux n none (fun _ => false) i l).dispatched = l.length ∧
    (runLoopAux n none (fun _ => false) i l).successful = l.length ∧
    (runLoopAux n none (fun _ => false) i l).stopped = false := by
  induction l generalizing i with
  | nil => refine ⟨rfl, rfl, rfl⟩
  | cons step rest ih =>
    have h := ih (i + 1)
    simp only [runLoopAux, stopObserved, if_false, dispatchStep_counted,
      List.length_cons]
    refine ⟨?_, ?_, ?_⟩
    · simp [h.1]; omega
    · simp [dispatchStep_counted, h.2.1]; omega
    · simp [h.2.2]

/-- Every log message the dispatcher emits for a member step appears in the
loop's log (no-stop, no-raise run). -/
theorem runLoopAux_mem_logs (n : Nat) (l : List Step) (i : Nat) (step : Step)
    (hmem : step ∈ l) (m : String) (hm : m ∈ (dispatchStep step false).1) :
    m ∈ (runLoopAux n none (fun _ => false) i l).logs := by
  induction l generalizing i with
  | nil => cases hmem
  | cons s0 rest ih =>
    rcases List.mem_cons.mp hmem with rfl | htail
    · simp [runLoopAux, stopObserved, List.mem_append, hm]
    · have h2 := ih (i + 1) htail
      simp [runLoopAux, stopObserved, List.mem_append, h2]

/-- With a stop observed after 1-based iteration `k` (and a step `k + 1`
to observe it at), the loop dispatches exactly the first `k` steps, counts
them all successful (no raising call), logs the cancellation entry, and
breaks. -/
theorem runLoopAux_stop (n k : Nat) (l : List Step) (i : Nat)
    (hik : i ≤ k) (hlen : k + 1 < i + l.length) :
    (runLoopAux n (some k) (fun _ => false) i l).dispatched = k + 1 - i ∧
    (runLoopAux n (some k) (fun _ => false) i l).successful = k + 1 - i ∧
    (runLoopAux n (some k) (fun _ => false) i l).stopped = true ∧
    "Automation stopped by user" ∈ (runLoopAux n (some k) (fun _ => false) i l).logs := by
  induction l generalizing i with
  | nil => simp at hlen; omega
  | cons step rest ih =>
    have hobs : stopObserved (some k) i = false := by
      simp [stopObserved]; omega
    simp only [runLoopAux, hobs, if_false]
    rcases Nat.lt_or_ge i k with hik2 | hik2
    · have h := ih (i + 1) (by omega) (by simp at hlen ⊢; omega)
      refine ⟨?_, ?_, ?_, ?_⟩
      · simp [h.1]; omega
      · simp [dispatchStep_counted, h.2.1]; omega
      · simp [h.2.2.1]
      · simp [List.mem_append, h.2.2.2]
    · have hik3 : i = k := by omega
      subst hik3
      rcases rest with _ | ⟨s2, rest2⟩
      · simp at hlen
      · have hobs2 : stopObserved (some i) (i + 1) = true := by
          simp [stopObserved]
        simp only [runLoopAux, hobs2, if_true]
        refine ⟨?_, ?_, rfl, ?_⟩
        · simp
        · simp [dispatchStep_counted]
        · simp

/-! ## Lemmas about the learning update -/

/-- The per-workflow record after `update_learning_data`: `total` goes up by
one, `successful` by one exactly when `success`, `last_run` is stamped. -/
theorem update_learning_data_lookup (d : LearningData) (wid : String)
    (success : Bool) (ss ts : Nat) (now : String) :
    lookupSR (update_learning_data d wid success ss ts now).success_rate wid =
      some { total := ((lookupSR d.success_rate wid).getD {}).total + 1
             successful := ((lookupSR d.success_rate wid).getD {}).successful +
               (if success then 1 else 0)
             last_run := some now } := by
  unfold update_learning_data
  exact lookupSR_setSR_self _ _ _

/-- The curve entry appended by `update_learning_data` is the last entry of
the updated curve. -/
theorem update_learning_data_curve_last (d : LearningData) (wid : String)
    (success : Bool) (ss ts : Nat) (now : String) :
    (update_learning_data d wid success ss ts now).learning_curve.getLast? =
      some { timestamp := now, workflow_id := wid, success := success
             steps_completed := ss, total_steps := ts } := by
  unfold update_learning_data
  rw [takeLast_getLast? 100 _ (by omega) (by simp)]
  simp

/-! ## Unfolding lemmas for `execute_workflow_with_feedback` -/

/-- Normal path: loaded workflow, nonempty step list, persistence succeeds. -/
theorem execute_ok_eq (steps : List Step) (wid : String) (d : LearningData)
    (stopAfter : Option Nat) (raises : Nat → Bool) (now : String)
    (hn : steps.length ≠ 0) :
    execute_workflow_with_feedback (.ok steps) wid d stopAfter raises .ok now =
      { logs := ["Starting automation for workflow " ++ wid,
                 "Total steps to execute", "Waiting 3 seconds"] ++
                (runLoopAux steps.length stopAfter raises 1 steps).logs ++
                [if ratioIs100 (runLoopAux steps.length stopAfter raises 1 steps).successful
                     steps.length then
                   "Automation complete, all steps executed successfully"
                 else "Automation completed with some unsuccessful steps"]
        calls := (runLoopAux steps.length stopAfter raises 1 steps).calls
        running_after := false
        retval := true
        db := .holds (update_learning_data d wid
                (ratioIs100 (runLoopAux steps.length stopAfter raises 1 steps).successful
                  steps.length)
                (runLoopAux steps.length stopAfter raises 1 steps).successful
                steps.length now)
        outcome := .completed
        stopped := (runLoopAux steps.length stopAfter raises 1 steps).stopped
        dispatched := (runLoopAux steps.length stopAfter raises 1 steps).dispatched
        successful := (runLoopAux steps.length stopAfter raises 1 steps).successful } := by
  unfold execute_workflow_with_feedback update_learning_record save_learning_data
  simp [hn]

/-- Persistence-failure path: loaded workflow, nonempty step list, the
`save_learning_data` write raises (during its `open` or during its
`json.dump`); the file ends up as the failed write left it. -/
theorem execute_ok_saveErr_eq (steps : List Step) (wid : String)
    (d : LearningData) (stopAfter : Option Nat) (raises : Nat → Bool)
    (now : String) (so : SaveOutcome) (hn : steps.length ≠ 0)
    (hso : so ≠ .ok) :
    execute_workflow_with_feedback (.ok steps) wid d stopAfter raises so now =
      { logs := ["Starting automation for workflow " ++ wid,
                 "Total steps to execute", "Waiting 3 seconds"] ++
                (runLoopAux steps.length stopAfter raises 1 steps).logs ++
                [if ratioIs100 (runLoopAux steps.length stopAfter raises 1 steps).successful
                     steps.length then
                   "Automation complete, all steps executed successfully"
                 else "Automation completed with some unsuccessful steps",
                 "Critical error: save failed"]
        calls := (runLoopAux steps.length stopAfter raises 1 steps).calls
        running_after := false
        retval := false
        db := if so = .openFailed then .holds d else .partialWrite
        outcome := .criticalError
        stopped := (runLoopAux steps.length stopAfter raises 1 steps).stopped
        dispatched := (runLoopAux steps.length stopAfter raises 1 steps).dispatched
        successful := (runLoopAux steps.length stopAfter raises 1 steps).successful } := by
  rcases so with _ | _ | _
  · exact absurd rfl hso
  · unfold execute_workflow_with_feedback update_learning_record save_learning_data
    simp [hn]
  · unfold execute_workflow_with_feedback update_learning_record save_learning_data
    simp [hn]

/-! ## Claims -/

/-- C2: for every recorded run the learning update increments the workflow's
`total` by exactly one, stamps `last_run` with the completion time, and
increments `successful` exactly when the run's ratio
`(successful_steps / total_steps) * 100` equals 100, which for a nonempty
step list happens exactly when every step succeeded. -/
theorem c2_learning_update_counters (d : LearningData) (wid now : String)
    (s n : Nat) (h : 0 < n) :
    lookupSR (update_learning_data d wid (ratioIs100 s n) s n now).success_rate wid =
      some { total := ((lookupSR d.success_rate wid).getD {}).total + 1
             successful := ((lookupSR d.success_rate wid).getD {}).successful +
               (if s = n then 1 else 0)
             last_run := some now } ∧
    (ratioIs100 s n = true ↔ s = n) := by
  have hn : n ≠ 0 := by omega
  constructor
  · rw [update_learning_data_lookup]
    by_cases hsn : s = n
    · simp [hsn, ratioIs100_self n hn]
    · simp [ratioIs100_of_ne s n hn hsn, hsn]
  · exact ratioIs100_iff s n hn

/-- Witness for C2 at the 3-of-4 run of the claim: `total` goes up,
`successful` does not. -/
theorem c2_learning_update_counters_witness :
    0 < 4 ∧
    (lookupSR (update_learning_data freshLearningData "wf-1" (ratioIs100 3 4) 3 4 "t").success_rate
        "wf-1" =
      some { total := ((lookupSR freshLearningData.success_rate "wf-1").getD {}).total + 1
             successful := ((lookupSR freshLearningData.success_rate "wf-1").getD {}).successful +
               (if 3 = 4 then 1 else 0)
             last_run := some "t" } ∧
     (ratioIs100 3 4 = true ↔ 3 = 4)) :=
  ⟨by decide, c2_learning_update_counters freshLearningData "wf-1" "t" 3 4 (by decide)⟩

/-- C3: each recording appends exactly one entry at the end of
`learning_curve`, the result has length `min (old + 1) 100` (hence at most
100 after any sequence of recorded runs), and it is a suffix of the old curve
followed by the new entry, so eviction happens only at the front and
most-recent-last order is preserved. -/
theorem c3_learning_curve_window (d : LearningData) (wid now : String)
    (succ : Bool) (ss ts : Nat) :
    (update_learning_data d wid succ ss ts now).learning_curve.length =
      min (d.learning_curve.length + 1) 100 ∧
    (update_learning_data d wid succ ss ts now).learning_curve.length ≤ 100 ∧
    (update_learning_data d wid succ ss ts now).learning_curve.getLast? =
      some { timestamp := now, workflow_id := wid, success := succ
             steps_completed := ss, total_steps := ts } ∧
    (update_learning_data d wid succ ss ts now).learning_curve.IsSuffix
      (d.learning_curve ++
        [{ timestamp := now, workflow_id := wid, success := succ
           steps_completed := ss, total_steps := ts }]) := by
  refine ⟨?_, ?_, update_learning_data_curve_last d wid succ ss ts now, ?_⟩
  · unfold update_learning_data
    rw [takeLast_length]
    simp
  · unfold update_learning_data
    rw [takeLast_length]
    simp
  · unfold update_learning_data
    exact takeLast_suffix _ _

/-- C4: for a workflow of `N` steps whose first `k` dispatches succeed, a stop
observed after step `k` completes and before step `k+1` starts (`1 ≤ k < N`)
makes the run dispatch exactly `k` steps, log the cancellation entry, count
exactly the `k` attempted steps, and still hand the run to the learning
recorder: the workflow's `total` increments, `successful` does not, and the
curve entry carries `steps_completed = k` and `total_steps = N`. -/
theorem c4_stop_after_k_steps (steps : List Step) (k : Nat) (wid now : String)
    (d : LearningData) (h1 : 1 ≤ k) (h2 : k < steps.length) :
    (execute_workflow_with_feedback (.ok steps) wid d (some k) (fun _ => false)
        .ok now).dispatched = k ∧
    "Automation stopped by user" ∈
      (execute_workflow_with_feedback (.ok steps) wid d (some k) (fun _ => false)
        .ok now).logs ∧
    (execute_workflow_with_feedback (.ok steps) wid d (some k) (fun _ => false)
        .ok now).successful = k ∧
    (execute_workflow_with_feedback (.ok steps) wid d (some k) (fun _ => false)
        .ok now).stopped = true ∧
    ∃ d2 : LearningData,
      (execute_workflow_with_feedback (.ok steps) wid d (some k) (fun _ => false)
        .ok now).db = .holds d2 ∧
      lookupSR d2.success_rate wid =
        some { total := ((lookupSR d.success_rate wid).getD {}).total + 1
               successful := ((lookupSR d.success_rate wid).getD {}).successful
               last_run := some now } ∧
      d2.learning_curve.getLast? =
        some { timestamp := now, workflow_id := wid, success := false
               steps_completed := k, total_steps := steps.length } := by
  have hn : steps.length ≠ 0 := by omega
  have hloop := runLoopAux_stop steps.length k steps 1 (by omega) (by omega)
  have hsucc : (runLoopAux steps.length (some k) (fun _ => false) 1 steps).successful = k := by
    rw [hloop.2.1]; omega
  have hdisp : (runLoopAux steps.length (some k) (fun _ => false) 1 steps).dispatched = k := by
    rw [hloop.1]; omega
  have hflag : ratioIs100 (runLoopAux steps.length (some k) (fun _ => false) 1 steps).successful
      steps.length = false := by
    rw [hsucc]
    exact ratioIs100_of_ne k steps.length hn (by omega)
  rw [execute_ok_eq steps wid d (some k) (fun _ => false) now hn]
  refine ⟨hdisp, ?_, hsucc, hloop.2.2.1, ?_⟩
  · simp only [List.mem_append]
    exact Or.inl (Or.inr hloop.2.2.2)
  · rw [hflag, hsucc]
    refine ⟨_, rfl, ?_, update_learning_data_curve_last d wid false k steps.length now⟩
    rw [update_learning_data_lookup]
    simp

/-- Witness for C4: the four-step example workflow of the specification,
stopped after step 2. -/
theorem c4_stop_after_k_steps_witness :
    1 ≤ 2 ∧ 2 < wf1Steps.length ∧
    ((execute_workflow_with_feedback (.ok wf1Steps) "wf-1" freshLearningData (some 2)
        (fun _ => false) .ok "t").dispatched = 2 ∧
     "Automation stopped by user" ∈
       (execute_workflow_with_feedback (.ok wf1Steps) "wf-1" freshLearningData (some 2)
         (fun _ => false) .ok "t").logs ∧
     (execute_workflow_with_feedback (.ok wf1Steps) "wf-1" freshLearningData (some 2)
        (fun _ => false) .ok "t").successful = 2 ∧
     (execute_workflow_with_feedback (.ok wf1Steps) "wf-1" freshLearningData (some 2)
        (fun _ => false) .ok "t").stopped = true ∧
     ∃ d2 : LearningData,
       (execute_workflow_with_feedback (.ok wf1Steps) "wf-1" freshLearningData (some 2)
         (fun _ => false) .ok "t").db = .holds d2 ∧
       lookupSR d2.success_rate "wf-1" =
         some { total := ((lookupSR freshLearningData.success_rate "wf-1").getD {}).total + 1
                successful := ((lookupSR freshLearningData.success_rate "wf-1").getD {}).successful
                last_run := some "t" } ∧
       d2.learning_curve.getLast? =
         some { timestamp := "t", workflow_id := "wf-1", success := false
                steps_completed := 2, total_steps := wf1Steps.length }) :=
  ⟨by decide, by decide,
    c4_stop_after_k_steps wf1Steps 2 "wf-1" "t" freshLearningData (by decide) (by decide)⟩

/-- C5 (the code, evaluated at the claim's failing input): executing a
workflow with an empty step list raises ZeroDivisionError in the outcome
computation; the generic handler logs a critical error and returns `False`,
the learning database is not updated, and the run never reaches the completed
exit — contradicting "terminates in the Completed state with outcome ratio 0
and never raises a division-by-zero error". -/
theorem c5_empty_workflow_division_error :
    (execute_workflow_with_feedback (.ok []) "wf-1" freshLearningData none
        (fun _ => false) .ok "t").outcome = .criticalError ∧
    (execute_workflow_with_feedback (.ok []) "wf-1" freshLearningData none
        (fun _ => false) .ok "t").retval = false ∧
    (execute_workflow_with_feedback (.ok []) "wf-1" freshLearningData none
        (fun _ => false) .ok "t").running_after = false ∧
    (execute_workflow_with_feedback (.ok []) "wf-1" freshLearningData none
        (fun _ => false) .ok "t").db = .holds freshLearningData ∧
    "Critical error: division by zero" ∈
      (execute_workflow_with_feedback (.ok []) "wf-1" freshLearningData none
        (fun _ => false) .ok "t").logs ∧
    (execute_workflow_with_feedback (.ok []) "wf-1" freshLearningData none
        (fun _ => false) .ok "t").outcome ≠ .completed := by decide

/-- C8 (the code, evaluated at the claim's inputs): a missing workflow file
takes the early `return False` that never clears `automation_running` — the
controller stays in the running state — while a genuinely raised error
(unreadable file) does reach the generic handler, which logs the critical
entry and clears the flag. -/
theorem c8_missing_file_leaves_running_flag :
    (execute_workflow_with_feedback .missing "wf-1" freshLearningData none
        (fun _ => false) .ok "t").running_after = true ∧
    (execute_workflow_with_feedback .missing "wf-1" freshLearningData none
        (fun _ => false) .ok "t").retval = false ∧
    (execute_workflow_with_feedback .missing "wf-1" freshLearningData none
        (fun _ => false) .ok "t").logs = ["Workflow file not found"] ∧
    (execute_workflow_with_feedback .missing "wf-1" freshLearningData none
        (fun _ => false) .ok "t").db = .holds freshLearningData ∧
    (execute_workflow_with_feedback .unreadable "wf-1" freshLearningData none
        (fun _ => false) .ok "t").running_after = false ∧
    (execute_workflow_with_feedback .unreadable "wf-1" freshLearningData none
        (fun _ => false) .ok "t").outcome = .criticalError ∧
    "Critical error: workflow file unreadable" ∈
      (execute_workflow_with_feedback .unreadable "wf-1" freshLearningData none
        (fun _ => false) .ok "t").logs := by decide

/-- C1 (the code, evaluated at the claim's failing trace): two `/api/execute`
requests handled before the first spawned thread runs its first statement both
see `automation_running == False` and both spawn a thread; the interleaved
continuation leaves two live execution threads and log entries of the two runs
interleaved.  A request that does arrive while the flag is set (last two
conjuncts) is rejected with the 400 body and spawns nothing. -/
theorem c1_interleaving_two_live_threads :
    (sysRun c1trace).threads = [.atStep "w1" 2 1, .atStep "w2" 2 1] ∧
    (sysRun c1trace).threads.countP ThreadSt.live = 2 ∧
    (sysRun c1trace).logs =
      [("w2", "Starting automation for workflow w2"),
       ("w1", "dispatched a step"), ("w2", "dispatched a step")] ∧
    (sysRun c1trace).running = true ∧
    (sysStep (sysRun c1trace) (.execReq "w3" 5)).threads = (sysRun c1trace).threads ∧
    (sysStep (sysRun c1trace) (.execReq "w3" 5)).httpLog =
      (sysRun c1trace).httpLog ++ ["400 Automation already running"] := by decide

/-- C6, counterexample: a one-step workflow whose click step carries no
coordinates.  The dispatcher appends the skip warning, but the step is still
counted: `successful_steps = 1`, the recorded run is marked successful
(`successful` increments, the curve entry says `success = true`) and the
ratio is 100, not reduced — refuting "is not counted among successful steps
(so the run's overall success ratio is reduced accordingly)". -/
theorem c6_counterexample_click_counted :
    (execute_workflow_with_feedback (.ok [clickNoCoords]) "wf-1" freshLearningData
        none (fun _ => false) .ok "t").successful = 1 ∧
    (execute_workflow_with_feedback (.ok [clickNoCoords]) "wf-1" freshLearningData
        none (fun _ => false) .ok "t").db =
      .holds { total_sessions := 0, total_automations := 1
               success_rate := [("wf-1", { total := 1, successful := 1, last_run := some "t" })]
               learning_curve := [{ timestamp := "t", workflow_id := "wf-1", success := true
                                    steps_completed := 1, total_steps := 1 }] } ∧
    "No coordinates available, skipping" ∈
      (execute_workflow_with_feedback (.ok [clickNoCoords]) "wf-1" freshLearningData
        none (fun _ => false) .ok "t").logs ∧
    (execute_workflow_with_feedback (.ok [clickNoCoords]) "wf-1" freshLearningData
        none (fun _ => false) .ok "t").outcome = .completed := by
  have h1 : ratioIs100
      (runLoopAux [clickNoCoords].length none (fun _ => false) 1 [clickNoCoords]).successful
      [clickNoCoords].length = true := ratioIs100_self 1 (by decide)
  rw [execute_ok_eq [clickNoCoords] "wf-1" freshLearningData none (fun _ => false) "t"
      (by decide), h1]
  decide

/-- C6, amended: for every click step missing one of its coordinates, in any
position of any workflow, the run appends the "No coordinates available,
skipping" warning and makes no injection call for that step, yet still counts
it successful; with no other failures every step is counted, so the ratio is
not reduced and the run completes normally. -/
theorem c6_click_missing_coords_amended (step : Step) (pre post : List Step)
    (wid now : String) (d : LearningData) (ha : step.action = "click")
    (hxy : step.args.x = none ∨ step.args.y = none) :
    "No coordinates available, skipping" ∈
      (execute_workflow_with_feedback (.ok (pre ++ step :: post)) wid d none
        (fun _ => false) .ok now).logs ∧
    (dispatchStep step false).2.1 = [] ∧
    (dispatchStep step false).2.2 = true ∧
    (execute_workflow_with_feedback (.ok (pre ++ step :: post)) wid d none
        (fun _ => false) .ok now).successful = pre.length + 1 + post.length ∧
    (execute_workflow_with_feedback (.ok (pre ++ step :: post)) wid d none
        (fun _ => false) .ok now).outcome = .completed ∧
    (execute_workflow_with_feedback (.ok (pre ++ step :: post)) wid d none
        (fun _ => false) .ok now).retval = true := by
  have hlen : (pre ++ step :: post).length ≠ 0 := by simp
  have hd := dispatchStep_click_no_coords step ha hxy
  rw [execute_ok_eq (pre ++ step :: post) wid d none (fun _ => false) now hlen]
  refine ⟨?_, ?_, ?_, ?_, rfl, rfl⟩
  · simp only [List.mem_append]
    left; right
    apply runLoopAux_mem_logs _ _ _ step (by simp)
    rw [hd]
    simp
  · rw [hd]
  · rw [hd]
  · rw [(runLoopAux_none (pre ++ step :: post).length (pre ++ step :: post) 1).2.1]
    simp
    omega

/-- Witness for the amended C6. -/
theorem c6_click_missing_coords_amended_witness :
    clickNoCoords.action = "click" ∧
    (clickNoCoords.args.x = none ∨ clickNoCoords.args.y = none) ∧
    ("No coordinates available, skipping" ∈
      (execute_workflow_with_feedback (.ok ([] ++ clickNoCoords :: [typeHello])) "wf-1"
        freshLearningData none (fun _ => false) .ok "t").logs ∧
     (dispatchStep clickNoCoords false).2.1 = [] ∧
     (dispatchStep clickNoCoords false).2.2 = true ∧
     (execute_workflow_with_feedback (.ok ([] ++ clickNoCoords :: [typeHello])) "wf-1"
        freshLearningData none (fun _ => false) .ok "t").successful =
       List.length ([] : List Step) + 1 + [typeHello].length ∧
     (execute_workflow_with_feedback (.ok ([] ++ clickNoCoords :: [typeHello])) "wf-1"
        freshLearningData none (fun _ => false) .ok "t").outcome = .completed ∧
     (execute_workflow_with_feedback (.ok ([] ++ clickNoCoords :: [typeHello])) "wf-1"
        freshLearningData none (fun _ => false) .ok "t").retval = true) :=
  ⟨by decide, by decide,
    c6_click_missing_coords_amended clickNoCoords [] [typeHello] "wf-1" "t"
      freshLearningData (by decide) (by decide)⟩

/-- C7, counterexample: with a persistence write that raises, the
learning-record operation returns an error to its caller — neither
`update_learning_data` nor `save_learning_data` contains any exception
handling — and the run being recorded, here a fully successful one-step run,
ends in the generic critical-error handler with `return False`: the
learning-write failure does fail the execution run, refuting "never raises to
its caller ... and never fails the execution run".  When `json.dump` is what
raised, the database file is moreover left truncated, since
`open(path, 'w')` truncated it on open. -/
theorem c7_counterexample_save_error_raises :
    (update_learning_record freshLearningData "wf-1" true 1 1 "t" .dumpFailed).1 =
      .error "save failed" ∧
    (update_learning_record freshLearningData "wf-1" true 1 1 "t" .openFailed).1 =
      .error "save failed" ∧
    (execute_workflow_with_feedback (.ok [typeHello]) "wf-1" freshLearningData none
        (fun _ => false) .dumpFailed "t").outcome = .criticalError ∧
    (execute_workflow_with_feedback (.ok [typeHello]) "wf-1" freshLearningData none
        (fun _ => false) .dumpFailed "t").retval = false ∧
    (execute_workflow_with_feedback (.ok [typeHello]) "wf-1" freshLearningData none
        (fun _ => false) .dumpFailed "t").running_after = false ∧
    (execute_workflow_with_feedback (.ok [typeHello]) "wf-1" freshLearningData none
        (fun _ => false) .dumpFailed "t").db = .partialWrite ∧
    "Critical error: save failed" ∈
      (execute_workflow_with_feedback (.ok [typeHello]) "wf-1" freshLearningData none
        (fun _ => false) .dumpFailed "t").logs := by
  have h1 : ratioIs100
      (runLoopAux [typeHello].length none (fun _ => false) 1 [typeHello]).successful
      [typeHello].length = true := ratioIs100_self 1 (by decide)
  refine ⟨rfl, rfl, ?_⟩
  rw [execute_ok_saveErr_eq [typeHello] "wf-1" freshLearningData none (fun _ => false)
      "t" .dumpFailed (by decide) (by decide), h1]
  decide

/-- C7, amended: neither `update_learning_data` nor `save_learning_data`
performs any error handling; for every run with at least one step, a raised
persistence error propagates to `execute_workflow_with_feedback`, whose
generic handler logs a critical error, clears the running flag and returns
`False` — the run whose outcome was being recorded is reported as failed.
Nothing is rolled back: the database file is left as the failed write left it,
untouched when `open(path, 'w')` itself raised, truncated/partial when
`json.dump` raised after `open` had truncated the file. -/
theorem c7_save_error_fails_run_amended (steps : List Step) (wid now : String)
    (d : LearningData) (stopAfter : Option Nat) (raises : Nat → Bool)
    (so : SaveOutcome) (h : steps ≠ []) (hso : so ≠ .ok) :
    (execute_workflow_with_feedback (.ok steps) wid d stopAfter raises so
        now).outcome = .criticalError ∧
    (execute_workflow_with_feedback (.ok steps) wid d stopAfter raises so
        now).retval = false ∧
    (execute_workflow_with_feedback (.ok steps) wid d stopAfter raises so
        now).running_after = false ∧
    (so = .openFailed →
      (execute_workflow_with_feedback (.ok steps) wid d stopAfter raises so
        now).db = .holds d) ∧
    (so = .dumpFailed →
      (execute_workflow_with_feedback (.ok steps) wid d stopAfter raises so
        now).db = .partialWrite) ∧
    "Critical error: save failed" ∈
      (execute_workflow_with_feedback (.ok steps) wid d stopAfter raises so
        now).logs := by
  have hn : steps.length ≠ 0 := by
    intro h0
    exact h (List.length_eq_zero.mp h0)
  rw [execute_ok_saveErr_eq steps wid d stopAfter raises now so hn hso]
  refine ⟨rfl, rfl, rfl, ?_, ?_, ?_⟩
  · intro h2
    rw [if_pos h2]
  · intro h2
    subst h2
    rfl
  · refine List.mem_append_right _ ?_
    exact List.mem_cons_of_mem _ (List.mem_singleton.mpr rfl)

/-- Witness for the amended C7, at a `json.dump` failure. -/
theorem c7_save_error_fails_run_amended_witness :
    [typeHello] ≠ [] ∧ SaveOutcome.dumpFailed ≠ SaveOutcome.ok ∧
    ((execute_workflow_with_feedback (.ok [typeHello]) "wf-1" freshLearningData (some 3)
        (fun _ => true) .dumpFailed "t").outcome = .criticalError ∧
     (execute_workflow_with_feedback (.ok [typeHello]) "wf-1" freshLearningData (some 3)
        (fun _ => true) .dumpFailed "t").retval = false ∧
     (execute_workflow_with_feedback (.ok [typeHello]) "wf-1" freshLearningData (some 3)
        (fun _ => true) .dumpFailed "t").running_after = false ∧
     (SaveOutcome.dumpFailed = SaveOutcome.openFailed →
       (execute_workflow_with_feedback (.ok [typeHello]) "wf-1" freshLearningData (some 3)
         (fun _ => true) .dumpFailed "t").db = .holds freshLearningData) ∧
     (SaveOutcome.dumpFailed = SaveOutcome.dumpFailed →
       (execute_workflow_with_feedback (.ok [typeHello]) "wf-1" freshLearningData (some 3)
         (fun _ => true) .dumpFailed "t").db = .partialWrite) ∧
     "Critical error: save failed" ∈
       (execute_workflow_with_feedback (.ok [typeHello]) "wf-1" freshLearningData (some 3)
         (fun _ => true) .dumpFailed "t").logs) :=
  ⟨by decide, by decide,
    c7_save_error_fails_run_amended [typeHello] "wf-1" "t" freshLearningData (some 3)
      (fun _ => true) .dumpFailed (by decide) (by decide)⟩

/-- C9: in `AutomationRunner`, dispatching a type step whose text is empty or
missing prints the "No text to type" warning, makes no injection call
(nothing is typed), and still reaches the closing step-completed print: a
no-op success, whatever the environment would have done to an injection. -/
theorem c9_empty_type_noop_success (step : Step) (r : Bool)
    (ha : step.action = "type")
    (ht : step.args.text = none ∨ step.args.text = some "") :
    rexecute_step step r =
      (["Step " ++ step.action ++ ": " ++ step.description, "No text to type",
        "Step completed"], [], true) := by
  obtain ⟨a, de, tg, ox, oy, otx, osec, okeys⟩ := step
  subst ha
  rcases ht with h | h <;> subst h <;>
    simp [rexecute_step, rexecute_type]

/-- Witness for C9. -/
theorem c9_empty_type_noop_success_witness :
    typeEmptyStep.action = "type" ∧
    (typeEmptyStep.args.text = none ∨ typeEmptyStep.args.text = some "") ∧
    rexecute_step typeEmptyStep true =
      (["Step " ++ typeEmptyStep.action ++ ": " ++ typeEmptyStep.description,
        "No text to type", "Step completed"], [], true) :=
  ⟨by decide, by decide,
    c9_empty_type_noop_success typeEmptyStep true (by decide) (Or.inl (by decide))⟩

/-! ## C10: the success-rate query -/

theorem expUpN_base (fuel num den : Nat) (h : num < 2 * den) :
    expUpN fuel num den = 0 := by
  cases fuel with
  | zero => rfl
  | succ fuel => simp [expUpN, h]

/-- `total / total` rounds to the binary64 value 1 (represented as
`2 ^ 52 / 2 ^ 52`). -/
theorem roundQF_self_div (t : Nat) (ht : 0 < t) :
    roundQF ⟨t, t⟩ = ⟨2 ^ 52, 2 ^ 52⟩ := by
  have hne : ¬(t = 0 ∨ t = 0) := by omega
  have he : log2floorN t t = 0 := by
    unfold log2floorN
    rw [if_pos (le_refl t)]
    exact expUpN_base 300 t t (by omega)
  unfold roundQF
  rw [if_neg hne]
  simp only [he]
  have ha : ((52 : Int) - 0).toNat = 52 := by decide
  have hb : ((0 : Int) - 52).toNat = 0 := by decide
  rw [ha, hb]
  simp only [pow_zero, Nat.mul_one]
  rw [Nat.mul_div_cancel_left _ ht, Nat.mul_mod_right]
  rw [if_pos (by omega : 2 * 0 < t)]

/-- A workflow with every recorded run successful reads back exactly 100. -/
theorem gsr_all_success (t : Nat) (ht : 0 < t) :
    pyintN (pymulN (pydivN t t) 100) = 100 := by
  unfold pydivN
  rw [roundQF_self_div t ht]
  decide

/-- C10, counterexample: at 29 successes out of 100 runs the code returns 28
(the binary64 product `(29 / 100) * 100` falls just below 29 and `int`
truncates), while the exact integer floor of `(29 / 100) * 100` is 29 — so
"returns the integer floor of `(successful_runs / total_runs) * 100`" is
false as stated. -/
theorem c10_counterexample_float_floor :
    get_success_rate db29of100 "wf-1" = 28 ∧
    ⌊(29 : ℚ) / 100 * 100⌋ = 29 ∧ (28 : Nat) ≠ 29 := by
  refine ⟨by decide, ?_, by decide⟩
  have h : (29 : ℚ) / 100 * 100 = (29 : ℚ) := by norm_num
  rw [h]
  norm_num

/-- C10, amended: the query returns 0 when the workflow has zero recorded
runs — it never divides by zero — and 100 when every recorded run succeeded;
otherwise it returns `int((successful / total) * 100)` evaluated in binary64,
which can fall one below the exact integer floor. -/
theorem c10_success_rate_amended (d : LearningData) (wid : String) :
    (((lookupSR d.success_rate wid).getD {}).total = 0 →
      get_success_rate d wid = 0) ∧
    (0 < ((lookupSR d.success_rate wid).getD {}).total →
      ((lookupSR d.success_rate wid).getD {}).successful =
        ((lookupSR d.success_rate wid).getD {}).total →
      get_success_rate d wid = 100) := by
  constructor
  · intro h0
    simp only [get_success_rate]
    rw [if_pos h0]
  · intro hpos heq
    simp only [get_success_rate]
    rw [if_neg (by omega), heq]
    exact gsr_all_success _ hpos

/-- Witness for the amended C10: both branches at concrete databases. -/
theorem c10_success_rate_amended_witness :
    (((lookupSR freshLearningData.success_rate "wf-1").getD {}).total = 0 ∧
      get_success_rate freshLearningData "wf-1" = 0) ∧
    (0 < ((lookupSR db5of5.success_rate "wf-1").getD {}).total ∧
      ((lookupSR db5of5.success_rate "wf-1").getD {}).successful =
        ((lookupSR db5of5.success_rate "wf-1").getD {}).total ∧
      get_success_rate db5of5 "wf-1" = 100) :=
  ⟨⟨by decide, (c10_success_rate_amended freshLearningData "wf-1").1 (by decide)⟩,
   ⟨by decide, by decide,
     (c10_success_rate_amended db5of5 "wf-1").2 (by decide) (by decide)⟩⟩
